import Mathlib

/-!
Verification of the `tz-bridge` webhook execution server
(`src/tz_webhook_server.py`) against its natural-language specification.

The Python source is shallowly embedded below:
pure fragments become Lean functions over `ℚ` (prices) and `ℤ` (share
counts); every broker round trip is an explicit input (an environment
record field), and every broker request the code issues is recorded in an
output trace; the shared `symbol_state` dict becomes an association list
with the same get / merge-update / replace semantics; Python `dict.get`
defaulting becomes `Option.getD`.  String case mapping models the ASCII
fragment of Python's `str.upper()` / `str.lower()` (ticker symbols and the
fixed action keywords are ASCII).
-/

/- ── Python string / number helpers ─────────────────────────────────── -/

/-- models Python `str.upper()` (ASCII fragment), as a character-wise map. -/
def pyUpper (s : String) : String := String.mk (s.toList.map Char.toUpper)

/-- models Python `str.lower()` (ASCII fragment), as a character-wise map. -/
def pyLower (s : String) : String := String.mk (s.toList.map Char.toLower)

/-- models Python `str.strip()`: drop leading and trailing whitespace. -/
def pyStrip (s : String) : String :=
  String.mk (((s.toList.dropWhile Char.isWhitespace).reverse.dropWhile
    Char.isWhitespace).reverse)

/-- models Python's `pat in s` substring test. -/
def strContains (s pat : String) : Bool := decide (List.IsInfix pat.toList s.toList)

/-- `"insufficient" in body.lower() or "inventory" in body.lower()`
(lines 302 and 357 of `tz_webhook_server.py`). -/
def hasInventoryPhrase (s : String) : Bool :=
  strContains (pyLower s) "insufficient" || strContains (pyLower s) "inventory"

/-- models Python `int(x)` on a real value: truncation toward zero. -/
def truncInt (q : ℚ) : ℤ := if 0 ≤ q then ⌊q⌋ else ⌈q⌉

/-- models Python `round(x, 2)` on exact rationals.  (Python rounds
half-to-even on binary floats; the two agree away from exact ties, and no
claim depends on a tie.) -/
def round2 (q : ℚ) : ℚ := (round (q * 100) : ℤ) / 100

/- ── CONFIG constants (lines 35-41) ──────────────────────────────────── -/

/-- `MAX_LOCATE_COST_PCT = 0.02` -/
def MAX_LOCATE_COST_PCT : ℚ := 2 / 100

/-- `MIN_LOCATE_QUANTITY = 100` -/
def MIN_LOCATE_QUANTITY : ℤ := 100

/-- `LIMIT_BUFFER = 0.005` -/
def LIMIT_BUFFER : ℚ := 5 / 1000

/- ── Symbol states and block reasons ─────────────────────────────────── -/

/-- the four values of the `state` field (lines 12-16). -/
inductive SymState
  | FLAT
  | LOCATING
  | ACTIVE
  | BLOCKED
deriving Repr, DecidableEq

/-- the reason strings the code stores via `block()` / `set_state()`.
Each constructor names one literal (or formatted) reason string of the
source; parameters carry the values the source interpolates into it. -/
inductive Reason
  | accountDetailsFailed
  | cannotAffordMin (maxAffordable : ℤ)
  | locateRequestInsufficientInventory
  | locateRequestFailed (status : Nat)
  | locateTimedOut
  | locateRejected (text : String)
  | locateExpired
  | locateCancelled
  | unexpectedLocateStatus (s : Nat)
  | locateOfferedWithError (text : String)
  | insufficientInventoryInResponse (text : String)
  | finalQuantityBelowMin (q : ℤ)
  | locateTooExpensive
  | locateAcceptFailed (status : Nat)
  | orderPlacementFailed
  | duplicateShortWhileActive
  | coverNoActivePosition
  | coverNoTzPosition
  | coverPositionNotShort (shares : ℚ)
  | covered
  | coverDuringLocate
  | cancelSignal
  | cleanupNoValidPrice
deriving Repr, DecidableEq

/-- one per-symbol entry of the `symbol_state` dict.  A missing dict key
is `none`; `set_state` merges fields into the existing entry. -/
structure Entry where
  state : SymState
  entry_price : Option ℚ
  quantity : Option ℤ
  quote_req_id : Option String
  client_order_id : Option String
  reason : Option Reason
deriving Repr, DecidableEq

/-- the `{"state": "FLAT"}` default created on first reference (line 75). -/
def emptyEntry : Entry :=
  { state := .FLAT, entry_price := none, quantity := none,
    quote_req_id := none, client_order_id := none, reason := none }

/-- the `symbol_state` dict: an association list with unique keys. -/
abbrev Store := List (String × Entry)

/-- `symbol_state.get(symbol)` (first matching key). -/
def storeGet : Store → String → Option Entry
  | [], _ => none
  | (k, v) :: rest, s => if k = s then some v else storeGet rest s

/-- `symbol_state[symbol] = e` (replace, or append if absent). -/
def storeSet : Store → String → Entry → Store
  | [], sym, e => [(sym, e)]
  | (k, v) :: rest, sym, e =>
      if k = sym then (sym, e) :: rest else (k, v) :: storeSet rest sym e

/-- `set_state(symbol, **kwargs)` (lines 72-78): default the entry to
`{"state": "FLAT"}` when absent, then merge the supplied fields `f`. -/
def storeUpdate (st : Store) (sym : String) (f : Entry → Entry) : Store :=
  match storeGet st sym with
  | some e => storeSet st sym (f e)
  | none => storeSet st sym (f emptyEntry)

/-- `get_state(symbol).get("state", "FLAT")` (lines 67-69 and 543). -/
def currentState (st : Store) (sym : String) : SymState :=
  ((storeGet st sym).getD emptyEntry).state

/-- the stored `reason` field of a symbol's entry. -/
def reasonOf (st : Store) (sym : String) : Option Reason :=
  ((storeGet st sym).getD emptyEntry).reason

/-- `block(symbol, reason)` (lines 81-83). -/
def blockStore (st : Store) (sym : String) (r : Reason) : Store :=
  storeUpdate st sym (fun e => { e with state := .BLOCKED, reason := some r })

/- ── Broker-side data (read from TradeZero, not owned) ───────────────── -/

/-- one element of the positions list returned by the broker (only the
fields the code reads); `priceClose` / `priceAvg` model the corresponding
dict keys, `none` when the key is absent. -/
structure Position where
  symbol : String
  shares : ℚ
  priceClose : Option ℚ
  priceAvg : Option ℚ
deriving Repr, DecidableEq

/-- `get_position(symbol)` (lines 149-162): scan the fetched positions
list for the first entry whose symbol matches case-insensitively. -/
def get_position (positions : List Position) (symbol : String) : Option Position :=
  positions.find? (fun p => pyUpper p.symbol = pyUpper symbol)

/-- the broker's reply to a successfully placed order (fields the code
reads from `place_order`'s response). -/
structure OrderAck where
  clientOrderId : String
  orderStatus : String
deriving Repr, DecidableEq

inductive Side
  | Buy
  | Sell
deriving Repr, DecidableEq

/-- an order request the code sends via `place_order` (lines 192-209):
side, symbol, `int(quantity)` and the already-rounded limit price. -/
structure Order where
  side : Side
  symbol : String
  quantity : ℕ
  limitPrice : ℚ
deriving Repr, DecidableEq

/-- a background thread launched by the dispatcher
(`threading.Thread(...).start()`, lines 567, 584-588, 635-639). -/
inductive Spawn
  | locateWf (symbol : String) (qty : ℤ) (price : ℚ)
  | cleanupWf (symbol : String) (reason : Reason)
deriving Repr, DecidableEq

/-- an HTTP response of the `/webhook` endpoint: either a 200 with a
`status` field (`ok` / `ignored` / `rejected`) and a short note, or a
non-200 with an error message. -/
inductive Resp
  | ok (status : String) (note : String)
  | err (code : Nat) (msg : String)
deriving Repr, DecidableEq

/-- the HTTP status code of a response. -/
def Resp.code : Resp → Nat
  | .ok _ _ => 200
  | .err c _ => c

/-- everything one call of the `/webhook` handler produces: the HTTP
response, the resulting `symbol_state` store, the background threads it
spawned, and the orders it submitted synchronously. -/
structure DispatchResult where
  resp : Resp
  store : Store
  spawns : List Spawn
  orders : List Order
deriving Repr, DecidableEq

/-- the broker round trips the synchronous COVER path may perform:
the positions fetch (`none` models an HTTP failure, collapsed with
"no matching position" exactly as `get_position` does), and the outcome
of `place_order` (`none` models a raised exception). -/
structure WebEnv where
  positionsFetch : Option (List Position)
  orderResult : Option OrderAck
deriving Repr, DecidableEq

/- ── Webhook dispatcher (lines 517-644) ──────────────────────────────── -/

/-- the SHORT branch's decision (lines 549-569) as a function of the
state snapshot `current` it observed via `get_state`.  Factoring the
observed state out of the store mirrors the lock granularity of the
source: `get_state` (line 542) and `set_state` (line 566) each take
`state_lock` separately, with the branch decision in between. -/
def shortDecide (st : Store) (symbol : String) (quantity : ℤ) (price : ℚ)
    (current : SymState) : DispatchResult :=
  if current = .BLOCKED then ⟨.ok "ignored" "blocked", st, [], []⟩
  else if current = .LOCATING then ⟨.ok "ignored" "locate in progress", st, [], []⟩
  else if current = .ACTIVE then
    ⟨.ok "rejected" "already active",
     blockStore st symbol .duplicateShortWhileActive, [], []⟩
  else if quantity ≤ 0 ∨ price ≤ 0 then
    ⟨.err 400 "quantity and price required for SHORT", st, [], []⟩
  else
    ⟨.ok "ok" "SHORT",
     storeUpdate st symbol (fun e =>
       { e with state := .LOCATING, entry_price := some price, quantity := some quantity }),
     [.locateWf symbol quantity price], []⟩

/-- the SHORT branch as executed: decide on the state read from the store. -/
def shortBranch (st : Store) (symbol : String) (quantity : ℤ) (price : ℚ) :
    DispatchResult :=
  shortDecide st symbol quantity price (currentState st symbol)

/-- the COVER branch (lines 572-630). -/
def coverBranch (env : WebEnv) (st : Store) (symbol : String) (price : ℚ) :
    DispatchResult :=
  let current := currentState st symbol
  if current = .BLOCKED then ⟨.ok "ignored" "blocked", st, [], []⟩
  else if current = .FLAT then
    ⟨.ok "rejected" "no position", blockStore st symbol .coverNoActivePosition, [], []⟩
  else if current = .LOCATING then
    ⟨.ok "ok" "cleanup_on_cover_during_locate", st,
     [.cleanupWf symbol .coverDuringLocate], []⟩
  else
    match env.positionsFetch.bind (fun l => get_position l symbol) with
    | none =>
        ⟨.ok "ok" "no position found", blockStore st symbol .coverNoTzPosition, [], []⟩
    | some position =>
        let shares := position.shares
        if 0 ≤ shares then
          ⟨.ok "ok" "not a short position",
           blockStore st symbol (.coverPositionNotShort shares), [], []⟩
        else
          let cover_qty := (truncInt shares).natAbs
          let last_price := position.priceClose.getD (position.priceAvg.getD price)
          let cover_limit := round2 (last_price * (1 + LIMIT_BUFFER))
          let theOrder : Order := ⟨.Buy, symbol, cover_qty, cover_limit⟩
          match env.orderResult with
          | some _ =>
              ⟨.ok "ok" "COVER",
               storeUpdate st symbol (fun e =>
                 { e with state := .FLAT, reason := some .covered }),
               [], [theOrder]⟩
          | none => ⟨.err 500 "cover order failed", st, [], [theOrder]⟩

/-- the CANCEL branch (lines 633-640): spawn the cleanup thread in every
state. -/
def cancelBranch (st : Store) (symbol : String) : DispatchResult :=
  ⟨.ok "ok" "CANCEL", st, [.cleanupWf symbol .cancelSignal], []⟩

/-- the fall-through branch for an unknown action (lines 642-644). -/
def unknownBranch (st : Store) (action : String) : DispatchResult :=
  ⟨.err 400 ("unknown action: " ++ action), st, [], []⟩

/-- the dispatcher body after parsing and normalization (lines 539-644):
reject an empty symbol, then select a branch by the action string. -/
def webhookDispatch (env : WebEnv) (st : Store) (action symbol : String)
    (quantity : ℤ) (price : ℚ) : DispatchResult :=
  if symbol = "" then ⟨.err 400 "missing symbol", st, [], []⟩
  else if action = "SHORT" then shortBranch st symbol quantity price
  else if action = "COVER" then coverBranch env st symbol price
  else if action = "CANCEL" then cancelBranch st symbol
  else unknownBranch st action

/-- a parsed JSON body (lines 534-537); missing `quantity` / `price`
default to 0 exactly as `body.get(...)` does. -/
structure Signal where
  action : String
  symbol : String
  quantity : ℤ
  price : ℚ
deriving Repr, DecidableEq

/-- the full `/webhook` handler (lines 517-644): `none` models a body
that failed JSON parsing (line 530); otherwise normalize
`action.upper()` and `symbol.upper().strip()` and dispatch. -/
def webhook (env : WebEnv) (st : Store) (raw : Option Signal) : DispatchResult :=
  match raw with
  | none => ⟨.err 400 "invalid JSON", st, [], []⟩
  | some body =>
      webhookDispatch env st (pyUpper body.action) (pyStrip (pyUpper body.symbol))
        body.quantity body.price

/-- the `/reset/<symbol>` handler (lines 507-514): uppercase the symbol
and replace its entry by `{"state": "FLAT"}`. -/
def reset_symbol (st : Store) (symbol : String) : Store × String :=
  let s := pyUpper symbol
  (storeSet st s emptyEntry, s)

/- ── Cleanup workflow (`cancel_and_cleanup`, lines 422-454) ──────────── -/

/-- the broker interactions one run of `cancel_and_cleanup` performs.
`cancel_all_open_orders` (lines 165-189) touches only broker-side order
state and never the symbol-state store, so it needs no field here; the
outcome of `place_order` (`none` = exception) changes only logging, not
the store or the order attempt, and is kept for structural fidelity. -/
structure CleanupEnv where
  positionsFetch : Option (List Position)
  orderResult : Option OrderAck
deriving Repr, DecidableEq

/-- `cancel_and_cleanup(symbol, reason)` (lines 422-454): cancel open
orders, fetch the position, cover a short (or block with the
manual-action reason when no positive price is available), and finally
block the symbol with the supplied reason.  Returns the resulting store
and the cover-order attempts submitted to the broker. -/
def cancel_and_cleanup (env : CleanupEnv) (st : Store) (symbol : String)
    (reason : Reason) : Store × List Order :=
  match env.positionsFetch.bind (fun l => get_position l symbol) with
  | some position =>
      let shares := position.shares
      if shares < 0 then
        let cover_qty := (truncInt shares).natAbs
        let last_price := position.priceClose.getD (position.priceAvg.getD 0)
        if last_price ≤ 0 then
          (blockStore st symbol .cleanupNoValidPrice, [])
        else
          let cover_limit := round2 (last_price * (1 + LIMIT_BUFFER))
          (blockStore st symbol reason, [⟨.Buy, symbol, cover_qty, cover_limit⟩])
      else
        (blockStore st symbol reason, [])
  | none => (blockStore st symbol reason, [])

/- ── Locate workflow (`locate_and_short`, lines 263-416) ─────────────── -/

/-- the account snapshot `get_account_details` returns (lines 141-146,
274-275); each `Option` models presence of the dict key read by
`account.get(...)`. -/
structure Account where
  buyingPower : Option ℚ
  availableCash : Option ℚ
  marginAvailable : Option ℚ
deriving Repr, DecidableEq

/-- the locate-history item `poll_locate_status` returns (lines 225-252,
327-347).  `locateShares` and `locateError` are read through `int(...)`
on broker-supplied integral values and are modelled as integers. -/
structure LocateItem where
  locateStatus : Nat
  locatePrice : Option ℚ
  locateShares : Option ℤ
  locateError : Option ℤ
  text : Option String
deriving Repr, DecidableEq

/-- one run's view of the outside world: every broker reply and every
`get_state` re-check the workflow performs, in program order.  The
`stateAfter*` fields are what the (concurrently mutable) store returns at
the three re-check points (lines 312, 319, 395). -/
structure LocateEnv where
  account : Option Account
  quoteStatus : Nat
  quoteBody : String
  stateAfterRequest : SymState
  pollResult : Option LocateItem
  stateAfterPoll : SymState
  acceptStatus : Nat
  stateAfterAccept : SymState
  orderResult : Option OrderAck
deriving Repr, DecidableEq

/-- the broker endpoints `locate_and_short` can hit, in order; the
polling loop is abstracted to one trace entry. -/
inductive BrokerCall
  | accountFetch
  | locateRequest
  | locatePoll
  | locateAccept
  | orderPlace
deriving Repr, DecidableEq

/-- how one run of `locate_and_short` ends: a `block(symbol, r)` call, a
silent abort after observing a foreign state change (no further
mutation), or a placed short order with `set_state(ACTIVE, ...)`. -/
inductive WfOutcome
  | blocked (r : Reason)
  | abortedStale
  | shortPlaced (qty : ℤ) (limit : ℚ)
deriving Repr, DecidableEq

/-- `locate_and_short(symbol, qc_quantity, entry_price)` (lines 263-416),
with every broker reply drawn from `env`.  Returns the terminal outcome
and the trace of broker calls made. -/
def locate_and_short (env : LocateEnv) (qc_quantity : ℤ) (entry_price : ℚ) :
    WfOutcome × List BrokerCall :=
  match env.account with
  | none => (.blocked .accountDetailsFailed, [.accountFetch])
  | some account =>
      let available_cash := account.buyingPower.getD (account.availableCash.getD 0)
      let margin_available := account.marginAvailable.getD available_cash
      let usable_capital := min available_cash margin_available
      let max_affordable := truncInt (usable_capital / entry_price)
      if max_affordable < MIN_LOCATE_QUANTITY then
        (.blocked (.cannotAffordMin max_affordable), [.accountFetch])
      else
        let request_quantity := min qc_quantity max_affordable
        if ¬ (env.quoteStatus = 200 ∨ env.quoteStatus = 201 ∨ env.quoteStatus = 202) then
          if hasInventoryPhrase env.quoteBody then
            (.blocked .locateRequestInsufficientInventory, [.accountFetch, .locateRequest])
          else
            (.blocked (.locateRequestFailed env.quoteStatus), [.accountFetch, .locateRequest])
        else if env.stateAfterRequest ≠ .LOCATING then
          (.abortedStale, [.accountFetch, .locateRequest])
        else if env.stateAfterPoll ≠ .LOCATING then
          (.abortedStale, [.accountFetch, .locateRequest, .locatePoll])
        else
          match env.pollResult with
          | none => (.blocked .locateTimedOut, [.accountFetch, .locateRequest, .locatePoll])
          | some locate =>
              let status := locate.locateStatus
              if status = 56 then
                (.blocked (.locateRejected (locate.text.getD "")),
                 [.accountFetch, .locateRequest, .locatePoll])
              else if status = 67 then
                (.blocked .locateExpired, [.accountFetch, .locateRequest, .locatePoll])
              else if status = 52 then
                (.blocked .locateCancelled, [.accountFetch, .locateRequest, .locatePoll])
              else if status ≠ 65 then
                (.blocked (.unexpectedLocateStatus status),
                 [.accountFetch, .locateRequest, .locatePoll])
              else
                let locate_price := locate.locatePrice.getD 0
                let offered_quantity := locate.locateShares.getD 0
                let locate_error := locate.locateError.getD 0
                let locate_text := locate.text.getD ""
                if locate_error = 1 then
                  (.blocked (.locateOfferedWithError locate_text),
                   [.accountFetch, .locateRequest, .locatePoll])
                else if hasInventoryPhrase locate_text then
                  (.blocked (.insufficientInventoryInResponse locate_text),
                   [.accountFetch, .locateRequest, .locatePoll])
                else
                  let final_quantity :=
                    if 0 < offered_quantity then min request_quantity offered_quantity
                    else request_quantity
                  if final_quantity < MIN_LOCATE_QUANTITY then
                    (.blocked (.finalQuantityBelowMin final_quantity),
                     [.accountFetch, .locateRequest, .locatePoll])
                  else if (0 < entry_price ∧ 0 < locate_price) ∧
                      MAX_LOCATE_COST_PCT < locate_price / entry_price then
                    (.blocked .locateTooExpensive,
                     [.accountFetch, .locateRequest, .locatePoll])
                  else if ¬ (env.acceptStatus = 200 ∨ env.acceptStatus = 201 ∨
                      env.acceptStatus = 202) then
                    (.blocked (.locateAcceptFailed env.acceptStatus),
                     [.accountFetch, .locateRequest, .locatePoll, .locateAccept])
                  else if env.stateAfterAccept ≠ .LOCATING then
                    (.abortedStale,
                     [.accountFetch, .locateRequest, .locatePoll, .locateAccept])
                  else
                    match env.orderResult with
                    | some _ =>
                        (.shortPlaced final_quantity
                           (round2 (entry_price * (1 - LIMIT_BUFFER))),
                         [.accountFetch, .locateRequest, .locatePoll, .locateAccept,
                          .orderPlace])
                    | none =>
                        (.blocked .orderPlacementFailed,
                         [.accountFetch, .locateRequest, .locatePoll, .locateAccept,
                          .orderPlace])

/- ── Interleaving model of two concurrent SHORT requests ─────────────── -/

/-- the progress of one request-handling thread running the SHORT path:
not yet read the state, read it (holding a stale snapshot), or finished. -/
inductive TPhase
  | Start
  | Read (observed : SymState)
  | Done
deriving Repr, DecidableEq

/-- two concurrent `/webhook` SHORT handlers for the same symbol plus the
shared store and the accumulated workflow launches. -/
structure RaceSys where
  store : Store
  t1 : TPhase
  t2 : TPhase
  spawns : List Spawn
deriving Repr, DecidableEq

/-- one atomic step of thread `who` (`true` = thread 1): either the
`get_state` read (line 542, under `state_lock`) or the branch decision
plus `set_state` / thread launch (lines 549-569), which runs against the
stale snapshot it read earlier.  Each lock-protected region is one atomic
step, exactly the granularity of `state_lock` in lines 67-78. -/
def raceStep (sym : String) (q : ℤ) (p : ℚ) (s : RaceSys) (who : Bool) : RaceSys :=
  if who then
    match s.t1 with
    | .Start => { s with t1 := .Read (currentState s.store sym) }
    | .Read obs =>
        let d := shortDecide s.store sym q p obs
        { s with store := d.store, spawns := s.spawns ++ d.spawns, t1 := .Done }
    | .Done => s
  else
    match s.t2 with
    | .Start => { s with t2 := .Read (currentState s.store sym) }
    | .Read obs =>
        let d := shortDecide s.store sym q p obs
        { s with store := d.store, spawns := s.spawns ++ d.spawns, t2 := .Done }
    | .Done => s

/-- run a schedule of atomic steps. -/
def raceRun (sym : String) (q : ℤ) (p : ℚ) (sched : List Bool) (s : RaceSys) : RaceSys :=
  sched.foldl (raceStep sym q p) s

/- ── Concrete environments used by the workflow theorems ─────────────── -/

/-- an otherwise-healthy locate run parameterized by the entry price `ep`
and the offered locate price `lp`: ample capital (scaled with `ep` so
that affordability never interferes), a 200 quote, a status-65 (Offered)
locate for 500 shares with no error flag and empty text, a 200 accept,
no concurrent state change, and a successful order.  Every gate before
and after the cost gate passes, isolating step 9. -/
def goodLocateEnv (ep lp : ℚ) : LocateEnv where
  account := some ⟨some (ep * 1000000), none, some (ep * 1000000)⟩
  quoteStatus := 200
  quoteBody := ""
  stateAfterRequest := .LOCATING
  pollResult := some ⟨65, some lp, some 500, some 0, some ""⟩
  stateAfterPoll := .LOCATING
  acceptStatus := 200
  stateAfterAccept := .LOCATING
  orderResult := some ⟨"OID1", "New"⟩

/-- the spec's affordability scenario: buyingPower = 1000,
marginAvailable = 1000 (the remaining fields are never reached). -/
def affordEnv : LocateEnv where
  account := some ⟨some 1000, none, some 1000⟩
  quoteStatus := 0
  quoteBody := ""
  stateAfterRequest := .FLAT
  pollResult := none
  stateAfterPoll := .FLAT
  acceptStatus := 0
  stateAfterAccept := .FLAT
  orderResult := none

/- ══ Theorems ═════════════════════════════════════════════════════════ -/

/- ── store lemmas ────────────────────────────────────────────────────── -/

theorem storeGet_storeSet_self (st : Store) (sym : String) (e : Entry) :
    storeGet (storeSet st sym e) sym = some e := by
  induction st with
  | nil => simp [storeSet, storeGet]
  | cons kv rest ih =>
      obtain ⟨k, v⟩ := kv
      by_cases h : k = sym
      · simp [storeSet, storeGet, h]
      · simp [storeSet, storeGet, h, ih]

theorem storeGet_storeUpdate_self (st : Store) (sym : String) (f : Entry → Entry) :
    storeGet (storeUpdate st sym f) sym = some (f ((storeGet st sym).getD emptyEntry)) := by
  unfold storeUpdate
  cases h : storeGet st sym <;> simp [h, storeGet_storeSet_self]

theorem currentState_blockStore (st : Store) (sym : String) (r : Reason) :
    currentState (blockStore st sym r) sym = .BLOCKED := by
  simp [currentState, blockStore, storeGet_storeUpdate_self]

theorem reasonOf_blockStore (st : Store) (sym : String) (r : Reason) :
    reasonOf (blockStore st sym r) sym = some r := by
  simp [reasonOf, blockStore, storeGet_storeUpdate_self]

/- ── arithmetic and string helper lemmas ─────────────────────────────── -/

theorem truncInt_intCast (n : ℤ) : truncInt (n : ℚ) = n := by
  unfold truncInt
  split <;> simp

theorem truncInt_eq_floor (q : ℚ) (h : 0 ≤ q) : truncInt q = ⌊q⌋ := by
  unfold truncInt
  rw [if_pos h]

theorem pyUpper_SHORT_id : pyUpper "SHORT" = "SHORT" := by decide

theorem pyUpper_COVER_id : pyUpper "COVER" = "COVER" := by decide

theorem norm_AAA : pyStrip (pyUpper "AAA") = "AAA" := by decide

theorem inventoryPhrase_empty : hasInventoryPhrase "" = false := by decide

theorem norm_empty_sym : pyStrip (pyUpper "") = "" := by decide

/- ── workflow evaluation lemmas ──────────────────────────────────────── -/

/-- under `goodLocateEnv` every gate other than the locate-cost gate
passes, so the run reduces to the cost comparison alone. -/
theorem locate_goodEnv_eval (ep lp : ℚ) (hep : 0 < ep) (hlp : 0 < lp) :
    locate_and_short (goodLocateEnv ep lp) 500 ep =
      if MAX_LOCATE_COST_PCT < lp / ep then
        (.blocked .locateTooExpensive, [.accountFetch, .locateRequest, .locatePoll])
      else
        (.shortPlaced 500 (round2 (ep * (1 - LIMIT_BUFFER))),
         [.accountFetch, .locateRequest, .locatePoll, .locateAccept, .orderPlace]) := by
  have hne : ep ≠ 0 := ne_of_gt hep
  have hmd : ep * 1000000 / ep = 1000000 := mul_div_cancel_left₀ _ hne
  have htr : truncInt ((1000000 : ℚ)) = 1000000 := by
    rw [show ((1000000 : ℚ)) = (((1000000 : ℤ)) : ℚ) by norm_cast, truncInt_intCast]
  have hm1 : min (500 : ℤ) 1000000 = 500 := by norm_num
  simp [locate_and_short, goodLocateEnv, hmd, htr, hm1, inventoryPhrase_empty,
    hep, hlp, MIN_LOCATE_QUANTITY, min_self]

/- ── Claims ──────────────────────────────────────────────────────────── -/

/-- Claim C1 (code_bug evidence): in the interleaving model of two
concurrent SHORT requests for the same FLAT symbol — each request one
atomic `get_state` read followed by one atomic branch-decision-plus-
`set_state` step, the exact lock granularity of the source — the schedule
in which both reads complete before either write launches TWO Locate
Workflows (both threads observed the stale FLAT state), contradicting
the claimed "exactly one transition and exactly one launch".  The second
and third conjuncts show the half that does hold: when the second
request's read happens after the first request's transition, it observes
LOCATING and is ignored, so exactly one workflow is launched. -/
theorem concurrent_short_race_double_spawn :
    (raceRun "LRMR" 500 (57/10) [true, false, true, false]
        ⟨[], .Start, .Start, []⟩).spawns =
      [.locateWf "LRMR" 500 (57/10), .locateWf "LRMR" 500 (57/10)] ∧
    (raceRun "LRMR" 500 (57/10) [true, true, false]
        ⟨[], .Start, .Start, []⟩).t2 = .Read .LOCATING ∧
    (raceRun "LRMR" 500 (57/10) [true, true, false, false]
        ⟨[], .Start, .Start, []⟩).spawns = [.locateWf "LRMR" 500 (57/10)] := by
  refine ⟨?_, ?_, ?_⟩ <;>
    simp [raceRun, raceStep, shortDecide, currentState, storeGet, storeUpdate,
      storeSet, emptyEntry, List.foldl, show ¬ (57/10 : ℚ) ≤ 0 by norm_num]

/-- Claim C2: in the Locate Workflow with positive entry and locate
prices (and every other gate passing), the run blocks exactly when
`locatePrice / entryPrice` strictly exceeds `MAX_LOCATE_COST_PCT = 0.02`,
and the block reason is the locate-too-expensive one; otherwise it
proceeds to accept the locate (the accept call appears in the broker
trace) and places the short.  Concretely: entry 10.00 with locate price
0.25 (2.5%) blocks, and with locate price 0.15 (1.5%) the short is
placed. -/
theorem locate_cost_gate_blocks_iff :
    (∀ ep lp : ℚ, 0 < ep → 0 < lp →
      (((∃ r, (locate_and_short (goodLocateEnv ep lp) 500 ep).1 = .blocked r) ↔
          MAX_LOCATE_COST_PCT < lp / ep) ∧
        (MAX_LOCATE_COST_PCT < lp / ep →
          (locate_and_short (goodLocateEnv ep lp) 500 ep).1 =
            .blocked .locateTooExpensive) ∧
        (lp / ep ≤ MAX_LOCATE_COST_PCT →
          (locate_and_short (goodLocateEnv ep lp) 500 ep).1 =
            .shortPlaced 500 (round2 (ep * (1 - LIMIT_BUFFER))) ∧
          BrokerCall.locateAccept ∈ (locate_and_short (goodLocateEnv ep lp) 500 ep).2))) ∧
    (locate_and_short (goodLocateEnv 10 (1/4)) 500 10).1 = .blocked .locateTooExpensive ∧
    (locate_and_short (goodLocateEnv 10 (3/20)) 500 10).1 =
      .shortPlaced 500 (round2 (10 * (1 - LIMIT_BUFFER))) := by
  have main : ∀ ep lp : ℚ, 0 < ep → 0 < lp →
      (((∃ r, (locate_and_short (goodLocateEnv ep lp) 500 ep).1 = .blocked r) ↔
          MAX_LOCATE_COST_PCT < lp / ep) ∧
        (MAX_LOCATE_COST_PCT < lp / ep →
          (locate_and_short (goodLocateEnv ep lp) 500 ep).1 =
            .blocked .locateTooExpensive) ∧
        (lp / ep ≤ MAX_LOCATE_COST_PCT →
          (locate_and_short (goodLocateEnv ep lp) 500 ep).1 =
            .shortPlaced 500 (round2 (ep * (1 - LIMIT_BUFFER))) ∧
          BrokerCall.locateAccept ∈ (locate_and_short (goodLocateEnv ep lp) 500 ep).2)) := by
    intro ep lp hep hlp
    rw [locate_goodEnv_eval ep lp hep hlp]
    by_cases hc : MAX_LOCATE_COST_PCT < lp / ep
    · simp [hc]
    · simp [hc]
  refine ⟨main, ?_, ?_⟩
  · exact (main 10 (1/4) (by norm_num) (by norm_num)).2.1 (by norm_num [MAX_LOCATE_COST_PCT])
  · exact ((main 10 (3/20) (by norm_num) (by norm_num)).2.2
      (by norm_num [MAX_LOCATE_COST_PCT])).1

/-- witness for C2: at entry price 10.00 and locate price 0.25 the
hypotheses hold and the gate blocks. -/
theorem locate_cost_gate_blocks_iff_witness :
    (0 : ℚ) < 10 ∧ (0 : ℚ) < 1/4 ∧
    ((∃ r, (locate_and_short (goodLocateEnv 10 (1/4)) 500 10).1 = .blocked r) ↔
      MAX_LOCATE_COST_PCT < (1/4) / 10) :=
  ⟨by norm_num, by norm_num,
   (locate_cost_gate_blocks_iff.1 10 (1/4) (by norm_num) (by norm_num)).1⟩

/-- Claim C3: `max_affordable` is `int(usable / entry)`, which equals
`floor(min(buyingPower, marginAvailable) / entryPrice)` whenever the
usable capital is nonnegative; whenever it is below
`MIN_LOCATE_QUANTITY = 100` the workflow blocks immediately with the
cannot-afford reason, its broker trace being exactly the account fetch;
concretely buyingPower = marginAvailable = 1000 at entry 12 blocks with
`max_affordable = 83`. -/
theorem affordability_gate :
    (∀ bp ma ep : ℚ, 0 ≤ min bp ma → 0 < ep →
      truncInt (min bp ma / ep) = ⌊min bp ma / ep⌋) ∧
    (∀ (env : LocateEnv) (qc : ℤ) (ep bp ma : ℚ) (av : Option ℚ),
      env.account = some ⟨some bp, av, some ma⟩ →
      truncInt (min bp ma / ep) < MIN_LOCATE_QUANTITY →
      locate_and_short env qc ep =
        (.blocked (.cannotAffordMin (truncInt (min bp ma / ep))), [.accountFetch])) ∧
    locate_and_short affordEnv 500 12 =
      (.blocked (.cannotAffordMin 83), [.accountFetch]) := by
  refine ⟨?_, ?_, ?_⟩
  · intro bp ma ep hm hep
    exact truncInt_eq_floor _ (div_nonneg hm hep.le)
  · intro env qc ep bp ma av hacc hlt
    simp [locate_and_short, hacc, hlt]
  · norm_num [locate_and_short, affordEnv, truncInt, MIN_LOCATE_QUANTITY]

/-- witness for C3: the spec's concrete scenario discharges the
hypotheses of the blocking part. -/
theorem affordability_gate_witness :
    affordEnv.account = some ⟨some 1000, none, some 1000⟩ ∧
    truncInt (min (1000 : ℚ) 1000 / 12) < MIN_LOCATE_QUANTITY ∧
    locate_and_short affordEnv 500 12 =
      (.blocked (.cannotAffordMin (truncInt (min (1000 : ℚ) 1000 / 12))), [.accountFetch]) :=
  ⟨rfl, by norm_num [truncInt, MIN_LOCATE_QUANTITY],
   affordability_gate.2.1 affordEnv 500 12 1000 1000 none rfl
     (by norm_num [truncInt, MIN_LOCATE_QUANTITY])⟩

/-- Claim C4: the dispatcher's behavior is selected by
`(action, currentState)` exactly per the spec table.  SHORT: ignored in
LOCATING and BLOCKED, rejected and blocked with the duplicate-SHORT
reason in ACTIVE, and in FLAT (with the required positive quantity and
price) transitions to LOCATING and spawns the Locate Workflow.  COVER:
rejected and blocked with the no-position reason in FLAT, spawns the
Cleanup Workflow in LOCATING, in ACTIVE looks up the live position and —
when it is short and the order succeeds — places a cover at the
position's last price plus buffer and transitions to FLAT, and is
ignored in BLOCKED.  CANCEL: spawns the Cleanup Workflow in every
state. -/
theorem dispatcher_table :
    (∀ (env : WebEnv) (st : Store) (sym : String) (q : ℤ) (p : ℚ), sym ≠ "" →
      currentState st sym = .LOCATING →
      webhookDispatch env st "SHORT" sym q p =
        ⟨.ok "ignored" "locate in progress", st, [], []⟩) ∧
    (∀ (env : WebEnv) (st : Store) (sym : String) (q : ℤ) (p : ℚ), sym ≠ "" →
      currentState st sym = .BLOCKED →
      webhookDispatch env st "SHORT" sym q p = ⟨.ok "ignored" "blocked", st, [], []⟩) ∧
    (∀ (env : WebEnv) (st : Store) (sym : String) (q : ℤ) (p : ℚ), sym ≠ "" →
      currentState st sym = .ACTIVE →
      webhookDispatch env st "SHORT" sym q p =
        ⟨.ok "rejected" "already active",
         blockStore st sym .duplicateShortWhileActive, [], []⟩) ∧
    (∀ (env : WebEnv) (st : Store) (sym : String) (q : ℤ) (p : ℚ), sym ≠ "" →
      currentState st sym = .FLAT → 0 < q → 0 < p →
      webhookDispatch env st "SHORT" sym q p =
        ⟨.ok "ok" "SHORT",
         storeUpdate st sym (fun e =>
           { e with state := .LOCATING, entry_price := some p, quantity := some q }),
         [.locateWf sym q p], []⟩) ∧
    (∀ (env : WebEnv) (st : Store) (sym : String) (q : ℤ) (p : ℚ), sym ≠ "" →
      currentState st sym = .FLAT →
      webhookDispatch env st "COVER" sym q p =
        ⟨.ok "rejected" "no position",
         blockStore st sym .coverNoActivePosition, [], []⟩) ∧
    (∀ (env : WebEnv) (st : Store) (sym : String) (q : ℤ) (p : ℚ), sym ≠ "" →
      currentState st sym = .LOCATING →
      webhookDispatch env st "COVER" sym q p =
        ⟨.ok "ok" "cleanup_on_cover_during_locate", st,
         [.cleanupWf sym .coverDuringLocate], []⟩) ∧
    (∀ (env : WebEnv) (st : Store) (sym : String) (q : ℤ) (p : ℚ)
        (pos : Position) (ack : OrderAck), sym ≠ "" →
      currentState st sym = .ACTIVE →
      env.positionsFetch.bind (fun l => get_position l sym) = some pos →
      pos.shares < 0 → env.orderResult = some ack →
      webhookDispatch env st "COVER" sym q p =
        ⟨.ok "ok" "COVER",
         storeUpdate st sym (fun e => { e with state := .FLAT, reason := some .covered }),
         [],
         [⟨.Buy, sym, (truncInt pos.shares).natAbs,
           round2 (pos.priceClose.getD (pos.priceAvg.getD p) * (1 + LIMIT_BUFFER))⟩]⟩) ∧
    (∀ (env : WebEnv) (st : Store) (sym : String) (q : ℤ) (p : ℚ), sym ≠ "" →
      currentState st sym = .BLOCKED →
      webhookDispatch env st "COVER" sym q p = ⟨.ok "ignored" "blocked", st, [], []⟩) ∧
    (∀ (env : WebEnv) (st : Store) (sym : String) (q : ℤ) (p : ℚ), sym ≠ "" →
      webhookDispatch env st "CANCEL" sym q p =
        ⟨.ok "ok" "CANCEL", st, [.cleanupWf sym .cancelSignal], []⟩) := by
  refine ⟨?_, ?_, ?_, ?_, ?_, ?_, ?_, ?_, ?_⟩
  · intro env st sym q p hne hcur
    simp [webhookDispatch, shortBranch, shortDecide, hne, hcur]
  · intro env st sym q p hne hcur
    simp [webhookDispatch, shortBranch, shortDecide, hne, hcur]
  · intro env st sym q p hne hcur
    simp [webhookDispatch, shortBranch, shortDecide, hne, hcur]
  · intro env st sym q p hne hcur hq hp
    simp [webhookDispatch, shortBranch, shortDecide, hne, hcur,
      not_le.mpr hq, not_le.mpr hp]
  · intro env st sym q p hne hcur
    simp [webhookDispatch, coverBranch, hne, hcur]
  · intro env st sym q p hne hcur
    simp [webhookDispatch, coverBranch, hne, hcur]
  · intro env st sym q p pos ack hne hcur hpos hsh hack
    simp [webhookDispatch, coverBranch, hne, hcur, hpos, hack, not_le.mpr hsh]
  · intro env st sym q p hne hcur
    simp [webhookDispatch, coverBranch, hne, hcur]
  · intro env st sym q p hne
    simp [webhookDispatch, cancelBranch, hne]

/-- witness for C4: a SHORT for a fresh (FLAT) symbol with valid
quantity and price transitions to LOCATING and spawns the workflow. -/
theorem dispatcher_table_witness :
    ("LRMR" : String) ≠ "" ∧ currentState [] "LRMR" = .FLAT ∧ (0 : ℤ) < 500 ∧
    (0 : ℚ) < 57/10 ∧
    webhookDispatch ⟨none, none⟩ [] "SHORT" "LRMR" 500 (57/10) =
      ⟨.ok "ok" "SHORT",
       storeUpdate [] "LRMR" (fun e =>
         { e with state := .LOCATING, entry_price := some (57/10), quantity := some 500 }),
       [.locateWf "LRMR" 500 (57/10)], []⟩ :=
  ⟨by decide, rfl, by decide, by norm_num,
   dispatcher_table.2.2.2.1 ⟨none, none⟩ [] "LRMR" 500 (57/10) (by decide) rfl
     (by decide) (by norm_num)⟩

/-- Claim C5 counterexample: the Dispatcher's immediate COVER path while
ACTIVE does NOT flag "manual action required" when the broker position
offers no valid cover price.  Broker reports shares = -500 with
`priceClose = 0` (no determinable positive price): the handler still
places a covering buy — at limit price 0 — and transitions the symbol to
FLAT instead of blocking it. -/
theorem dispatcher_cover_guessed_price_cex :
    (webhook ⟨some [⟨"AAA", -500, some 0, none⟩], some ⟨"X", "New"⟩⟩
        [("AAA", { emptyEntry with state := .ACTIVE })]
        (some ⟨"COVER", "AAA", 0, 11/2⟩)).orders = [⟨.Buy, "AAA", 500, 0⟩] ∧
    currentState (webhook ⟨some [⟨"AAA", -500, some 0, none⟩], some ⟨"X", "New"⟩⟩
        [("AAA", { emptyEntry with state := .ACTIVE })]
        (some ⟨"COVER", "AAA", 0, 11/2⟩)).store "AAA" = .FLAT ∧
    reasonOf (webhook ⟨some [⟨"AAA", -500, some 0, none⟩], some ⟨"X", "New"⟩⟩
        [("AAA", { emptyEntry with state := .ACTIVE })]
        (some ⟨"COVER", "AAA", 0, 11/2⟩)).store "AAA" ≠ some .cleanupNoValidPrice := by
  have hq : (truncInt (-500)).natAbs = 500 := by
    rw [show ((-500 : ℚ)) = (((-500 : ℤ)) : ℚ) by norm_cast, truncInt_intCast]
    decide
  have hr : round2 ((0 : ℚ) * (1 + LIMIT_BUFFER)) = 0 := by
    norm_num [round2, round_eq]
  have hr0 : round2 (0 : ℚ) = 0 := by norm_num [round2, round_eq]
  refine ⟨?_, ?_, ?_⟩ <;>
    simp [webhook, pyUpper_COVER_id, norm_AAA, webhookDispatch, coverBranch,
      currentState, reasonOf, storeGet, storeUpdate, storeSet, emptyEntry,
      get_position, List.find?, hq, hr, hr0, show ¬ (0 : ℚ) ≤ -500 by norm_num]

/-- Claim C5 (amended): the manual-action guarantee holds in the Cleanup
Workflow: when the freshly fetched position is short and neither
`priceClose` nor `priceAvg` yields a positive price, `cancel_and_cleanup`
blocks the symbol with the manual-action-required reason and places no
cover order.  (The Dispatcher's immediate COVER path instead falls back
to the signal price without this check, see the counterexample.) -/
theorem cleanup_manual_action_no_price :
    ∀ (env : CleanupEnv) (st : Store) (sym : String) (r : Reason) (pos : Position),
      env.positionsFetch.bind (fun l => get_position l sym) = some pos →
      pos.shares < 0 → pos.priceClose.getD (pos.priceAvg.getD 0) ≤ 0 →
      cancel_and_cleanup env st sym r =
        (blockStore st sym .cleanupNoValidPrice, []) := by
  intro env st sym r pos hpos hsh hlp
  unfold cancel_and_cleanup
  rw [hpos]
  simp [hsh, hlp]

/-- witness for C5's amended theorem: a short position of -500 shares
whose `priceClose` is 0 is blocked with the manual-action reason. -/
theorem cleanup_manual_action_no_price_witness :
    (some [(⟨"AAA", -500, some 0, none⟩ : Position)]).bind
        (fun l => get_position l "AAA") = some ⟨"AAA", -500, some 0, none⟩ ∧
    ((-500 : ℚ)) < 0 ∧
    ((some (0 : ℚ)).getD ((none : Option ℚ).getD 0)) ≤ 0 ∧
    cancel_and_cleanup ⟨some [⟨"AAA", -500, some 0, none⟩], none⟩ [] "AAA" .cancelSignal =
      (blockStore [] "AAA" .cleanupNoValidPrice, []) :=
  ⟨by simp [get_position, List.find?], by norm_num, by norm_num,
   cleanup_manual_action_no_price ⟨some [⟨"AAA", -500, some 0, none⟩], none⟩ [] "AAA"
     .cancelSignal ⟨"AAA", -500, some 0, none⟩ (by simp [get_position, List.find?])
     (by norm_num) (by norm_num)⟩

/-- Claim C6 counterexample: a signal with the unknown action `WIBBLE`
is answered with HTTP 400 and leaves the store untouched — no BLOCKED
state (indeed no state at all) is recorded for the symbol, contradicting
the claim that an unknown action is recorded as BLOCKED. -/
theorem unknown_action_not_blocked_cex :
    webhook ⟨none, none⟩ [] (some ⟨"WIBBLE", "AAA", 1, 1⟩) =
      ⟨.err 400 ("unknown action: " ++ "WIBBLE"), [], [], []⟩ ∧
    storeGet (webhook ⟨none, none⟩ [] (some ⟨"WIBBLE", "AAA", 1, 1⟩)).store "AAA" =
      none := by
  constructor <;>
    simp [webhook, webhookDispatch, unknownBranch, storeGet, norm_AAA,
      show pyUpper "WIBBLE" = "WIBBLE" by decide]

/-- Claim C6 (amended): a signal whose (uppercased) action is none of
SHORT / COVER / CANCEL is rejected synchronously with an HTTP 400 error
carrying the unknown-action message, and the symbol-state store is left
unchanged (nothing is recorded as BLOCKED). -/
theorem unknown_action_rejected :
    ∀ (env : WebEnv) (st : Store) (sym a : String) (q : ℤ) (p : ℚ), sym ≠ "" →
      a ≠ "SHORT" → a ≠ "COVER" → a ≠ "CANCEL" →
      webhookDispatch env st a sym q p =
        ⟨.err 400 ("unknown action: " ++ a), st, [], []⟩ := by
  intro env st sym a q p hne h1 h2 h3
  simp [webhookDispatch, unknownBranch, hne, h1, h2, h3]

/-- witness for C6's amended theorem: the sibling QuantConnect algorithm
(`src/main.py`) emits `BUY`, which this server does not know. -/
theorem unknown_action_rejected_witness :
    ("SQQQ" : String) ≠ "" ∧ ("BUY" : String) ≠ "SHORT" ∧
    ("BUY" : String) ≠ "COVER" ∧ ("BUY" : String) ≠ "CANCEL" ∧
    webhookDispatch ⟨none, none⟩ [] "BUY" "SQQQ" 10 20 =
      ⟨.err 400 ("unknown action: " ++ "BUY"), [], [], []⟩ :=
  ⟨by decide, by decide, by decide, by decide,
   unknown_action_rejected ⟨none, none⟩ [] "SQQQ" "BUY" 10 20 (by decide) (by decide)
     (by decide) (by decide)⟩

/-- Claim C7: in every outcome the claim enumerates — no position, flat
position, long position, short successfully covered, or cover-order
failure (all outcomes except the separately-handled no-valid-price path,
which blocks with its own manual-action reason) — `cancel_and_cleanup`
finishes by transitioning the symbol to BLOCKED with the supplied
reason. -/
theorem cleanup_blocks_with_supplied_reason :
    ∀ (env : CleanupEnv) (st : Store) (sym : String) (r : Reason),
      (∀ pos, env.positionsFetch.bind (fun l => get_position l sym) = some pos →
        pos.shares < 0 → 0 < pos.priceClose.getD (pos.priceAvg.getD 0)) →
      (cancel_and_cleanup env st sym r).1 = blockStore st sym r ∧
      currentState (cancel_and_cleanup env st sym r).1 sym = .BLOCKED ∧
      reasonOf (cancel_and_cleanup env st sym r).1 sym = some r := by
  intro env st sym r h
  have h1 : (cancel_and_cleanup env st sym r).1 = blockStore st sym r := by
    unfold cancel_and_cleanup
    rcases hpos : env.positionsFetch.bind (fun l => get_position l sym) with _ | pos
    · simp [hpos]
    · by_cases hsh : pos.shares < 0
      · have hp := h pos hpos hsh
        simp [hpos, hsh, not_le.mpr hp]
      · simp [hpos, hsh]
  refine ⟨h1, ?_, ?_⟩
  · rw [h1]; exact currentState_blockStore st sym r
  · rw [h1]; exact reasonOf_blockStore st sym r

/-- witness for C7: cleanup with no position found ends BLOCKED with the
supplied CANCEL reason. -/
theorem cleanup_blocks_with_supplied_reason_witness :
    (cancel_and_cleanup ⟨none, none⟩ [] "AAA" .cancelSignal).1 =
      blockStore [] "AAA" .cancelSignal ∧
    currentState (cancel_and_cleanup ⟨none, none⟩ [] "AAA" .cancelSignal).1 "AAA" =
      .BLOCKED ∧
    reasonOf (cancel_and_cleanup ⟨none, none⟩ [] "AAA" .cancelSignal).1 "AAA" =
      some .cancelSignal :=
  cleanup_blocks_with_supplied_reason ⟨none, none⟩ [] "AAA" .cancelSignal
    (fun pos h => by simp at h)

/-- Claim C8: a covering buy order is submitted only when the freshly
fetched broker position has strictly negative shares, and its quantity
is `abs(int(shares))` — for an integral share count, exactly the
absolute value of the share count; a flat or long (nonnegative-share)
position produces no order on either cover path (the Cleanup Workflow
and the Dispatcher's COVER branch). -/
theorem cover_orders_only_short :
    (∀ (env : CleanupEnv) (st : Store) (sym : String) (r : Reason) (o : Order),
      o ∈ (cancel_and_cleanup env st sym r).2 →
      ∃ pos, env.positionsFetch.bind (fun l => get_position l sym) = some pos ∧
        pos.shares < 0 ∧ o.side = .Buy ∧ o.quantity = (truncInt pos.shares).natAbs) ∧
    (∀ (env : WebEnv) (st : Store) (sym : String) (p : ℚ) (o : Order),
      o ∈ (coverBranch env st sym p).orders →
      ∃ pos, env.positionsFetch.bind (fun l => get_position l sym) = some pos ∧
        pos.shares < 0 ∧ o.side = .Buy ∧ o.quantity = (truncInt pos.shares).natAbs) ∧
    (∀ (env : CleanupEnv) (st : Store) (sym : String) (r : Reason) (pos : Position),
      env.positionsFetch.bind (fun l => get_position l sym) = some pos →
      0 ≤ pos.shares → (cancel_and_cleanup env st sym r).2 = []) ∧
    (∀ (env : WebEnv) (st : Store) (sym : String) (p : ℚ) (pos : Position),
      env.positionsFetch.bind (fun l => get_position l sym) = some pos →
      0 ≤ pos.shares → (coverBranch env st sym p).orders = []) ∧
    (∀ (n : ℤ) (q : ℚ), q = (n : ℚ) → (((truncInt q).natAbs : ℚ)) = |q|) := by
  refine ⟨?_, ?_, ?_, ?_, ?_⟩
  · intro env st sym r o ho
    unfold cancel_and_cleanup at ho
    rcases hpos : env.positionsFetch.bind (fun l => get_position l sym) with _ | pos
    · simp [hpos] at ho
    · rw [hpos] at ho
      by_cases hsh : pos.shares < 0
      · by_cases hlp : pos.priceClose.getD (pos.priceAvg.getD 0) ≤ 0
        · simp [hsh, hlp] at ho
        · simp only [if_pos hsh, if_neg hlp] at ho
          simp at ho
          exact ⟨pos, rfl, hsh, by simp [ho], by simp [ho]⟩
      · simp [hsh] at ho
  · intro env st sym p o ho
    unfold coverBranch at ho
    by_cases h1 : currentState st sym = .BLOCKED
    · simp [h1] at ho
    · by_cases h2 : currentState st sym = .FLAT
      · simp [h1, h2] at ho
      · by_cases h3 : currentState st sym = .LOCATING
        · simp [h1, h2, h3] at ho
        · simp only [if_neg h1, if_neg h2, if_neg h3] at ho
          rcases hpos : env.positionsFetch.bind (fun l => get_position l sym) with _ | pos
          · simp [hpos] at ho
          · rw [hpos] at ho
            by_cases hsh : 0 ≤ pos.shares
            · simp [hsh] at ho
            · rcases hor : env.orderResult with _ | ack
              all_goals rw [hor] at ho
              all_goals simp [hsh] at ho
              all_goals exact ⟨pos, rfl, lt_of_not_le hsh, by simp [ho], by simp [ho]⟩
  · intro env st sym r pos hpos hsh
    unfold cancel_and_cleanup
    rw [hpos]
    simp [not_lt.mpr hsh]
  · intro env st sym p pos hpos hsh
    unfold coverBranch
    by_cases h1 : currentState st sym = .BLOCKED
    · simp [h1]
    · by_cases h2 : currentState st sym = .FLAT
      · simp [h1, h2]
      · by_cases h3 : currentState st sym = .LOCATING
        · simp [h1, h2, h3]
        · simp only [if_neg h1, if_neg h2, if_neg h3]
          rw [hpos]
          rcases hor : env.orderResult with _ | ack
          all_goals simp [hsh, hor]
  · intro n q hq
    subst hq
    rw [truncInt_intCast, Nat.cast_natAbs, Int.cast_abs]

/-- witness for C8: a long position of 300 shares is left untouched by
the Cleanup Workflow (no order attempt). -/
theorem cover_orders_only_short_witness :
    (⟨some [⟨"AAA", 300, some 5, none⟩], none⟩ : CleanupEnv).positionsFetch.bind
        (fun l => get_position l "AAA") = some ⟨"AAA", 300, some 5, none⟩ ∧
    (0 : ℚ) ≤ 300 ∧
    (cancel_and_cleanup ⟨some [⟨"AAA", 300, some 5, none⟩], none⟩ [] "AAA"
      .cancelSignal).2 = [] :=
  ⟨by simp [get_position, List.find?], by norm_num,
   cover_orders_only_short.2.2.1 ⟨some [⟨"AAA", 300, some 5, none⟩], none⟩ [] "AAA"
     .cancelSignal ⟨"AAA", 300, some 5, none⟩ (by simp [get_position, List.find?])
     (by norm_num)⟩

/-- Claim C9 counterexample: a SHORT request with missing quantity and
price (both default to 0) for a symbol in state ACTIVE is NOT answered
with HTTP 400 and DOES mutate state: the duplicate-SHORT check runs
before the field validation, so the handler returns 200 ("rejected") and
blocks the symbol. -/
theorem short_missing_fields_while_active_cex :
    (webhook ⟨none, none⟩ [("AAA", { emptyEntry with state := .ACTIVE })]
        (some ⟨"SHORT", "AAA", 0, 0⟩)).resp = .ok "rejected" "already active" ∧
    (webhook ⟨none, none⟩ [("AAA", { emptyEntry with state := .ACTIVE })]
        (some ⟨"SHORT", "AAA", 0, 0⟩)).resp.code ≠ 400 ∧
    (webhook ⟨none, none⟩ [("AAA", { emptyEntry with state := .ACTIVE })]
        (some ⟨"SHORT", "AAA", 0, 0⟩)).store =
      [("AAA", { emptyEntry with
                   state := .BLOCKED
                   reason := some .duplicateShortWhileActive })] ∧
    (webhook ⟨none, none⟩ [("AAA", { emptyEntry with state := .ACTIVE })]
        (some ⟨"SHORT", "AAA", 0, 0⟩)).store ≠
      [("AAA", { emptyEntry with state := .ACTIVE })] := by
  have he : webhook ⟨none, none⟩ [("AAA", { emptyEntry with state := .ACTIVE })]
      (some ⟨"SHORT", "AAA", 0, 0⟩) =
      ⟨.ok "rejected" "already active",
       [("AAA", { emptyEntry with
                    state := .BLOCKED
                    reason := some .duplicateShortWhileActive })], [], []⟩ := by
    simp [webhook, pyUpper_SHORT_id, norm_AAA, webhookDispatch, shortBranch,
      shortDecide, currentState, storeGet, storeUpdate, storeSet, blockStore,
      emptyEntry]
  refine ⟨by rw [he], by rw [he]; simp [Resp.code], by rw [he], by rw [he]; simp⟩

/-- Claim C9 (amended): malformed JSON and a missing symbol are always
rejected with an immediate HTTP 400 and no state mutation; a SHORT with
nonpositive (missing) quantity or price is rejected with HTTP 400 and no
state mutation when the symbol is FLAT — in the other states the
state-machine checks run first (ignored in LOCATING/BLOCKED, rejected
and blocked in ACTIVE; see the counterexample). -/
theorem input_errors_rejected :
    (∀ (env : WebEnv) (st : Store),
      webhook env st none = ⟨.err 400 "invalid JSON", st, [], []⟩) ∧
    (∀ (env : WebEnv) (st : Store) (a : String) (q : ℤ) (p : ℚ),
      webhook env st (some ⟨a, "", q, p⟩) = ⟨.err 400 "missing symbol", st, [], []⟩) ∧
    (∀ (env : WebEnv) (st : Store) (sym : String) (q : ℤ) (p : ℚ),
      pyStrip (pyUpper sym) = sym → sym ≠ "" → currentState st sym = .FLAT →
      q ≤ 0 ∨ p ≤ 0 →
      webhook env st (some ⟨"SHORT", sym, q, p⟩) =
        ⟨.err 400 "quantity and price required for SHORT", st, [], []⟩) := by
  refine ⟨?_, ?_, ?_⟩
  · intro env st
    simp [webhook]
  · intro env st a q p
    simp [webhook, webhookDispatch, norm_empty_sym]
  · intro env st sym q p hsn hne hcur hqp
    rcases hqp with hq | hp
    · simp [webhook, pyUpper_SHORT_id, hsn, webhookDispatch, shortBranch,
        shortDecide, hne, hcur, hq]
    · simp [webhook, pyUpper_SHORT_id, hsn, webhookDispatch, shortBranch,
        shortDecide, hne, hcur, hp]

/-- witness for C9's amended theorem: a SHORT for a fresh FLAT symbol
with both fields missing (defaulted to 0) is rejected with 400 and the
store is unchanged. -/
theorem input_errors_rejected_witness :
    pyStrip (pyUpper "AAPL") = "AAPL" ∧ ("AAPL" : String) ≠ "" ∧
    currentState [] "AAPL" = .FLAT ∧ ((0 : ℤ) ≤ 0 ∨ (0 : ℚ) ≤ 0) ∧
    webhook ⟨none, none⟩ [] (some ⟨"SHORT", "AAPL", 0, 0⟩) =
      ⟨.err 400 "quantity and price required for SHORT", [], [], []⟩ :=
  ⟨by decide, by decide, rfl, Or.inl (by decide),
   input_errors_rejected.2.2 ⟨none, none⟩ [] "AAPL" 0 0 (by decide) (by decide) rfl
     (Or.inl (by decide))⟩

/-- Claim C10: symbol identity is case-insensitive at the public
endpoints: the webhook handler acts on `symbol.upper().strip()` and the
reset handler on `symbol.upper()`, so two requests whose symbol strings
have the same uppercasing produce identical results (same store entry,
same response, same spawns and orders). -/
theorem symbol_case_insensitive :
    (∀ (env : WebEnv) (st : Store) (s1 s2 a : String) (q : ℤ) (p : ℚ),
      pyUpper s1 = pyUpper s2 →
      webhook env st (some ⟨a, s1, q, p⟩) = webhook env st (some ⟨a, s2, q, p⟩)) ∧
    (∀ (st : Store) (s1 s2 : String), pyUpper s1 = pyUpper s2 →
      reset_symbol st s1 = reset_symbol st s2) := by
  constructor
  · intro env st s1 s2 a q p h
    simp only [webhook]
    rw [h]
  · intro st s1 s2 h
    simp only [reset_symbol]
    rw [h]

/-- witness for C10: `lrmr` and `LRMR` produce the same dispatch
result. -/
theorem symbol_case_insensitive_witness :
    pyUpper "lrmr" = pyUpper "LRMR" ∧
    webhook ⟨none, none⟩ [] (some ⟨"SHORT", "lrmr", 500, 57/10⟩) =
      webhook ⟨none, none⟩ [] (some ⟨"SHORT", "LRMR", 500, 57/10⟩) :=
  ⟨by decide,
   symbol_case_insensitive.1 ⟨none, none⟩ [] "lrmr" "LRMR" "SHORT" 500 (57/10)
     (by decide)⟩
